import Mathlib

/-!
Verification of the quiz/exam delivery and scoring flow of the
adaptive-scholar repository. The definitions below are shallow embeddings of
the handlers in `src/pages/QuizView.tsx` (quiz variant, in both its plain and
its timed/configurable form) and of the `SecureExam` component (secure-exam
variant): answer selection, question-subset construction, the countdown
timer, scoring, the points/level progression, remedial recommendations, and
the anti-cheat violation counters. Machine numbers are modelled as `Nat`/`Int`
(all quantities involved are small and non-negative in the source), and JS
`Math.round` on the exact score ratio is modelled as half-up rounding on `ℚ`.
-/

namespace AdaptiveScholar

/-- `Question` record as loaded for a session (the `Question` interface of the
quiz and exam components). -/
structure Question where
  id : String
  question : String
  options : List String
  correct_answer : Nat
  explanation : Option String
  points : Nat
  order_index : Nat
deriving DecidableEq

/-- The `selectedAnswers` map (JS `Map<string, number>` in the quiz variant,
a plain object in the exam variant): association list from question id to
chosen option index, first entry wins on lookup. -/
abbrev AnswerMap := List (String × Nat)

/-- JS `Map.set` / object-spread update semantics: overwrite the entry for the
key in place when present, otherwise append it at the end. -/
def mapSet (m : AnswerMap) (k : String) (v : Nat) : AnswerMap :=
  match m with
  | [] => [(k, v)]
  | (k₀, v₀) :: rest => if k₀ = k then (k, v) :: rest else (k₀, v₀) :: mapSet rest k v

/-- `handleSelectAnswer` of the quiz variant (`QuizView.tsx`): rejected while
`isSubmitted`, otherwise inserts/overwrites the entry for the question. -/
def handleSelectAnswer (isSubmitted : Bool) (m : AnswerMap)
    (questionId : String) (answerIndex : Nat) : AnswerMap :=
  if isSubmitted then m else mapSet m questionId answerIndex

/-- Local UI state of the `SecureExam` component that its answer-select
handler can see: the answers object and the `isSubmitting` flag. -/
structure ExamUIState where
  answers : AnswerMap
  isSubmitting : Bool
deriving DecidableEq

/-- `handleAnswerSelect` of the secure-exam variant: a plain object-spread
update of `answers` — the handler never consults `isSubmitting`. -/
def examSelectAnswer (s : ExamUIState) (questionId : String)
    (answerIndex : Nat) : ExamUIState :=
  { s with answers := mapSet s.answers questionId answerIndex }

/-- The scoring loop shared by `handleSubmitQuiz` and `handleSubmitExam`: a
`forEach` over the session's questions accumulating `(correctCount,
totalPoints)`; a question counts as correct exactly when the answer map holds
its id with value equal to `correct_answer`. -/
def scoreCounts (questions : List Question) (answers : AnswerMap) : Nat × Nat :=
  questions.foldl
    (fun acc q =>
      if List.lookup q.id answers = some q.correct_answer
      then (acc.1 + 1, acc.2 + q.points) else acc)
    (0, 0)

/-- Exact half-up rounding over the rationals, `⌊x + 1/2⌋`: the rounding the
spec ascribes to the percentage. It is also the exact behaviour of JS
`Math.round` on the value of its (double) argument; the program's divergence
from the spec comes from the argument itself being evaluated in doubles, not
from the rounding step. -/
def mathRound (x : ℚ) : ℤ := ⌊x + 1 / 2⌋

/-- Floor of the base-2 logarithm, by fuel-bounded halving (`log2Fuel n n`
computes `⌊log₂ n⌋` for `n ≥ 1`, since the fuel `n` bounds the number of
halvings). -/
def log2Fuel : ℕ → ℕ → ℕ
  | 0, _ => 0
  | fuel + 1, n => if n ≤ 1 then 0 else log2Fuel fuel (n / 2) + 1

/-- `⌊log₂ n⌋` for `n ≥ 1` (0 at 0). -/
def natLog2 (n : ℕ) : ℕ := log2Fuel n n

/-- Round the fraction `n / d` to the nearest integer, ties to even — the
IEEE-754 default rounding used for each double operation. -/
def natRoundHalfEven (n d : ℕ) : ℕ :=
  let q := n / d
  let r := n % d
  if 2 * r < d then q
  else if d < 2 * r then q + 1
  else if q % 2 = 0 then q else q + 1

/-- A nonnegative binary floating-point value `m / 2^e`. Every double the
scoring expression produces has this shape: its values lie in `[0, 2^53)`,
well inside the binary64 normal range, where the significand `m` fits in 53
bits and the scale `e` is nonnegative. -/
structure FP where
  m : ℕ
  e : ℕ
deriving DecidableEq

/-- The exact rational value of the floating-point number. -/
def FP.toRat (x : FP) : ℚ := (x.m : ℚ) / ((2 ^ x.e : ℕ) : ℚ)

/-- Modelled from the spec: IEEE-754 binary64 round-to-nearest (ties to even)
of the host JS engine, which is not part of the repository — the scoring
source only writes `(correctCount / questions.length) * 100`. The fraction
`n / d` is scaled so that the rounded significand lands in `[2^52, 2^53)`
(one corrective rescale suffices since `natLog2` locates the binade to within
one position); values at or above `2^53` — unreachable from the quiz flow —
are rounded to an unbounded-significand integer instead of overflowing. This
model reproduces the hardware double value of `c / t` and `(c / t) * 100`
bit-for-bit on the quiz flow's input range. -/
def roundFrac (n d : ℕ) : FP :=
  if n = 0 ∨ d = 0 then ⟨0, 0⟩
  else
    let j₀ := 52 + natLog2 d - natLog2 n
    let m₀ := natRoundHalfEven (n * 2 ^ j₀) d
    if m₀ < 2 ^ 52 then ⟨natRoundHalfEven (n * 2 ^ (j₀ + 1)) d, j₀ + 1⟩
    else if 2 ^ 53 ≤ m₀ then
      if j₀ = 0 then ⟨m₀, 0⟩
      else ⟨natRoundHalfEven (n * 2 ^ (j₀ - 1)) d, j₀ - 1⟩
    else ⟨m₀, j₀⟩

/-- The double division `correctCount / questions.length`: correctly rounded,
both operands being exactly representable integers. -/
def jsDiv (a b : ℕ) : FP := roundFrac a b

/-- The double product `x * k` for an exactly representable integer factor
`k` (here 100): the exact product `(m * k) / 2^e` correctly rounded. -/
def jsMul (x : FP) (k : ℕ) : FP := roundFrac (x.m * k) (2 ^ x.e)

/-- JS `Math.round` applied to the double `m / 2^e`: the integral value
closest to it, ties toward +∞ — exact half-up rounding of its value,
computed in integer arithmetic as `(2*m + 2^e) / 2^(e+1)`. -/
def mathRoundFP (x : FP) : ℤ := ((2 * x.m + 2 ^ x.e) / 2 ^ (x.e + 1) : ℕ)

/-- The percentage computation `questions.length > 0 ?
Math.round((correctCount / questions.length) * 100) : 0` of
`handleSubmitExam`, with the division and multiplication evaluated in IEEE
doubles as the program does; `handleSubmitQuiz` computes the same unguarded
expression but returns early when the question list is empty, so on its
executed paths the two coincide. -/
def scorePercentage (correctCount totalQuestions : Nat) : ℤ :=
  if 0 < totalQuestions
  then mathRoundFP (jsMul (jsDiv correctCount totalQuestions) 100)
  else 0

/-- The question-subset construction of `startQuiz`: `'all'` (here `none`)
keeps the loaded pool (a spread copy, original order_index order); a numeric
count shuffles the pool with `sort(() => Math.random() - 0.5)` — modelled by
the `shuffled` permutation parameter — and slices the first
`Math.min(count, allQuestions.length)` items. -/
def buildSession (allQuestions : List Question) (selectedQuestionCount : Option Nat)
    (shuffled : List Question) : List Question :=
  match selectedQuestionCount with
  | none => allQuestions
  | some count => shuffled.take (min count allQuestions.length)

/-- Timer initialization of `startQuiz`: when enabled, the countdown starts at
`minutes * 60` seconds (so the deadline is session start plus that many
seconds); disabled means no countdown exists. -/
def buildTimer (enabled : Bool) (minutes : Nat) : Option Nat :=
  if enabled then some (minutes * 60) else none

/-- Three-tier difficulty level of a profile. -/
inductive Level where
  | beginner
  | intermediate
  | advanced
deriving DecidableEq

/-- Numeric rank of a level, used to state that levels never regress. -/
def levelRank : Level → Nat
  | .beginner => 0
  | .intermediate => 1
  | .advanced => 2

/-- Profile columns read and written by the progression update;
`total_points` is a nullable integer column, normalized with `|| 0`. -/
structure Profile where
  total_points : Option Nat
  current_level : Level
deriving DecidableEq

/-- The points/level update of `handleSubmitQuiz`, applied only when the
percentage reaches the quiz's passing score: add the earned points to the
cumulative total and step the level by the 500/1500 thresholds checked
against the new total. -/
def updateProgression (scorePct passingScore : ℤ) (profile : Profile)
    (totalPoints : Nat) : Profile :=
  if scorePct ≥ passingScore then
    let newPoints := profile.total_points.getD 0 + totalPoints
    let newLevel :=
      if newPoints ≥ 500 ∧ profile.current_level = Level.beginner then
        Level.intermediate
      else if newPoints ≥ 1500 ∧ profile.current_level = Level.intermediate then
        Level.advanced
      else profile.current_level
    { total_points := some newPoints, current_level := newLevel }
  else profile

/-- A `recommendations` row as inserted by `handleSubmitQuiz`. -/
structure Recommendation where
  user_id : String
  lesson_id : String
  reason : String
  priority : Nat
deriving DecidableEq

/-- The remedial-recommendation step of `handleSubmitQuiz`: one row is
inserted exactly when the percentage is below the passing score AND the
lesson reference loaded (`scorePercentage < quiz.passing_score && lesson`). -/
def recommendationInserts (scorePct passingScore : ℤ) (userId : String)
    (lessonId : Option String) : List Recommendation :=
  match lessonId with
  | some lid =>
      if scorePct < passingScore then
        [{ user_id := userId, lesson_id := lid,
           reason := "Review this lesson - you scored " ++ toString scorePct
             ++ "% on the quiz",
           priority := 10 }]
      else []
  | none => []

/-- A `quiz_attempts` row. -/
structure AttemptRecord where
  user_id : String
  quiz_id : String
  score : ℤ
  correct_answers : Nat
  total_questions : Nat
  time_taken_seconds : ℤ
deriving DecidableEq

/-- Persistent rows touched by a quiz-variant submission. -/
structure QuizDB where
  attempts : List AttemptRecord
  profile : Profile
  recommendations : List Recommendation
deriving DecidableEq

/-- Component state of the quiz variant relevant to submission. -/
structure QuizState where
  questions : List Question
  selectedAnswers : AnswerMap
  isSubmitted : Bool
  score : ℤ
deriving DecidableEq

/-- `handleSubmitQuiz` of the quiz variant: its entry guard checks only
`!user || !quiz || questions.length === 0` — there is no submitted/submitting
guard — then it scores, writes an attempt row, conditionally applies the
progression update and conditionally inserts a recommendation. -/
def handleSubmitQuiz (userId quizId : String) (passingScore : ℤ)
    (lessonId : Option String) (timeTaken : ℤ) (s : QuizState) (db : QuizDB) :
    QuizState × QuizDB :=
  if s.questions.length = 0 then (s, db)
  else
    let counts := scoreCounts s.questions s.selectedAnswers
    let pct := scorePercentage counts.1 s.questions.length
    let att : AttemptRecord :=
      { user_id := userId, quiz_id := quizId, score := pct,
        correct_answers := counts.1, total_questions := s.questions.length,
        time_taken_seconds := timeTaken }
    ({ s with score := pct, isSubmitted := true },
     { attempts := db.attempts ++ [att],
       profile := updateProgression pct passingScore db.profile counts.2,
       recommendations := db.recommendations ++
         recommendationInserts pct passingScore userId lessonId })

/-- Component state of the secure-exam variant relevant to submission. -/
structure ExamState where
  questions : List Question
  answers : AnswerMap
  timeLeft : ℤ
  isSubmitting : Bool
deriving DecidableEq

/-- Persistent rows touched by an exam submission: the attempt rows and
whether the exam-session row has been closed (`ended_at` set, `is_active`
cleared). -/
structure ExamDB where
  attempts : List AttemptRecord
  sessionEnded : Bool
deriving DecidableEq

/-- `handleSubmitExam` of the secure-exam variant: guarded by
`if (isSubmitting) return`, then sets the flag, scores the recorded answers,
writes one attempt row and closes the exam session. -/
def handleSubmitExam (userId quizId : String) (s : ExamState) (db : ExamDB) :
    ExamState × ExamDB :=
  if s.isSubmitting then (s, db)
  else
    let counts := scoreCounts s.questions s.answers
    let pct := scorePercentage counts.1 s.questions.length
    let att : AttemptRecord :=
      { user_id := userId, quiz_id := quizId, score := pct,
        correct_answers := counts.1, total_questions := s.questions.length,
        time_taken_seconds := 1800 - s.timeLeft }
    ({ s with isSubmitting := true },
     { attempts := db.attempts ++ [att], sessionEnded := true })

/-- The two violation kinds observed by the security monitor. -/
inductive VKind where
  | tab_switch
  | fullscreen_exit
deriving DecidableEq

/-- `type.replace('_', ' ')` for the two violation kinds. -/
def vkindLabel : VKind → String
  | .tab_switch => "tab switch"
  | .fullscreen_exit => "fullscreen exit"

/-- The `exam_sessions` columns mutated by the violation handler (DB defaults:
counters 0, `is_flagged` false, `flag_reason` null). -/
structure ExamSession where
  tab_switches : Nat
  fullscreen_exits : Nat
  is_flagged : Bool
  flag_reason : Option String
deriving DecidableEq

/-- A fresh exam-session row as created by `startExam`. -/
def initialExamSession : ExamSession :=
  { tab_switches := 0, fullscreen_exits := 0, is_flagged := false,
    flag_reason := none }

/-- `handleSecurityViolation`: increments the counter of the violated kind and
rewrites `is_flagged`/`flag_reason` from that kind's new count alone
(`newCount >= 3`). The returned boolean records whether the 3-second
auto-submit timeout was scheduled on this event. -/
def handleSecurityViolation (s : ExamSession) (t : VKind) : ExamSession × Bool :=
  let newCount :=
    (match t with
     | .tab_switch => s.tab_switches
     | .fullscreen_exit => s.fullscreen_exits) + 1
  let flagged := newCount ≥ 3
  let reason :=
    if newCount ≥ 3 then some ("Multiple " ++ vkindLabel t ++ "s detected")
    else none
  (match t with
   | .tab_switch =>
      { s with tab_switches := newCount, is_flagged := flagged,
               flag_reason := reason }
   | .fullscreen_exit =>
      { s with fullscreen_exits := newCount, is_flagged := flagged,
               flag_reason := reason },
   flagged)

/-- Fold a sequence of recorded violations through the handler; the boolean
result records whether any of the events scheduled the auto-submit. -/
def runViolations (s : ExamSession) : List VKind → ExamSession × Bool
  | [] => (s, false)
  | t :: rest =>
      let step := handleSecurityViolation s t
      let next := runViolations step.1 rest
      (next.1, step.2 || next.2)

/-- Component state of the timed quiz variant driven by the countdown
effect. -/
structure TimedQuizState where
  quizStarted : Bool
  timerEnabled : Bool
  timeRemaining : Option Nat
  isSubmitted : Bool
  selectedAnswers : AnswerMap
  questions : List Question
  score : ℤ
deriving DecidableEq

/-- The state-side effect of the timer-expiry submission path: mark the
session submitted and score the answers recorded in the state at that
instant. -/
def submitTimed (s : TimedQuizState) : TimedQuizState :=
  { s with isSubmitted := true,
           score := scorePercentage (scoreCounts s.questions s.selectedAnswers).1
             s.questions.length }

/-- One second of the countdown effect of the timed quiz variant: inactive
unless the quiz started, the timer is enabled, a countdown exists and the
session is not submitted; otherwise the countdown decrements once per second
and, on the second it reaches zero, the effect fires the timer-expiry
submission. -/
def tick (s : TimedQuizState) : TimedQuizState :=
  if s.quizStarted && s.timerEnabled && !s.isSubmitted then
    match s.timeRemaining with
    | some t =>
        if t ≤ 1 then submitTimed { s with timeRemaining := some 0 }
        else { s with timeRemaining := some (t - 1) }
    | none => s
  else s

/-- JSON value shape of the `options` payload column. -/
inductive Json where
  | null : Json
  | bool : Bool → Json
  | num : Int → Json
  | str : String → Json
  | arr : List Json → Json
  | obj : List (String × Json) → Json

mutual

/-- JS `String(x)` coercion, as applied element-wise to array payloads. -/
def jsString : Json → String
  | .null => "null"
  | .bool b => cond b "true" "false"
  | .num n => toString n
  | .str s => s
  | .arr xs => jsStringList xs
  | .obj _ => "[object Object]"

/-- JS array-to-string: elements stringified and joined with commas. -/
def jsStringList : List Json → String
  | [] => ""
  | [x] => jsString x
  | x :: xs => jsString x ++ "," ++ jsStringList xs

end

/-- `parseOptions` of the quiz variants: array payloads are element-wise
coerced to strings; string payloads are fed to the host `JSON.parse` (passed
in as `jsonParse`; platform code, not part of the repository) and the parsed
value is returned unchanged on success, `[]` on a parse error; every other
shape yields `[]`. The declared TS return type is `string[]`, but the string
branch returns whatever `JSON.parse` produced, so the runtime result can be
any JSON value — hence the `Json` result type of this embedding. -/
def parseOptions (jsonParse : String → Option Json) : Json → Json
  | .arr xs => .arr (xs.map (fun o => .str (jsString o)))
  | .str s =>
      match jsonParse s with
      | some v => v
      | none => .arr []
  | _ => .arr []

/-- Whether a JSON value is an array of strings — the shape the declared
return type `string[]` of `parseOptions` promises. -/
def isStringList : Json → Bool
  | .arr xs => xs.all fun x => match x with | .str _ => true | _ => false
  | _ => false

/-- Modelled from the spec: the host `JSON.parse` (absent from the repository;
only its call site in `parseOptions` is in src), restricted to the concrete
payloads exercised below — the JSON text `"hello"` parses to the JSON string
`hello`. -/
def jsonParseAt : String → Option Json :=
  fun s => if s = "\"hello\"" then some (.str "hello") else none

/-- C1: the spec claims the two violation kinds share one pooled counter
against the single threshold 3, so any mix of 3 combined events flags the
session and schedules auto-submission. Evaluating the violation handler at
the failing input 2 tab-switches followed by 1 fullscreen-exit: the combined
total is 3, yet the session is not flagged and no auto-submission was
scheduled at any step, because `handleSecurityViolation` compares only the
violated kind's own counter with 3 — contradicting the component's own UI,
which displays the combined count against `/3` and announces that 3 security
violations end the exam. -/
theorem secureExam_pooledThreshold_bug :
    (runViolations initialExamSession
        [VKind.tab_switch, VKind.tab_switch, VKind.fullscreen_exit]).1.tab_switches
      + (runViolations initialExamSession
        [VKind.tab_switch, VKind.tab_switch, VKind.fullscreen_exit]).1.fullscreen_exits
      = 3
  ∧ (runViolations initialExamSession
        [VKind.tab_switch, VKind.tab_switch, VKind.fullscreen_exit]).1.is_flagged
      = false
  ∧ (runViolations initialExamSession
        [VKind.tab_switch, VKind.tab_switch, VKind.fullscreen_exit]).2
      = false := by
  refine ⟨rfl, rfl, rfl⟩

/-- C2: the spec claims `flagged` holds iff the combined violation total
reached 3 at some point, and that once set it is never unset within the
session. Evaluating the handler: after 3 tab-switches the session is flagged,
but one further fullscreen-exit (combined total 4) rewrites `is_flagged` to
false, because the handler recomputes the flag from the newly violated kind's
counter alone — the flag is neither equivalent to the pooled-total condition
nor monotonic. -/
theorem secureExam_flag_invariant_bug :
    (runViolations initialExamSession
        [VKind.tab_switch, VKind.tab_switch, VKind.tab_switch]).1.is_flagged = true
  ∧ (runViolations initialExamSession
        [VKind.tab_switch, VKind.tab_switch, VKind.tab_switch,
         VKind.fullscreen_exit]).1.is_flagged = false
  ∧ (runViolations initialExamSession
        [VKind.tab_switch, VKind.tab_switch, VKind.tab_switch,
         VKind.fullscreen_exit]).1.tab_switches
      + (runViolations initialExamSession
        [VKind.tab_switch, VKind.tab_switch, VKind.tab_switch,
         VKind.fullscreen_exit]).1.fullscreen_exits = 4 := by
  refine ⟨rfl, rfl, rfl⟩

/-- C10: the spec claims `parseOptions` rejects every non-array shape —
including strings that do not parse to a JSON array — so that only a list of
strings reaches the scoring logic. Evaluating the function at the failing
input: the string payload whose text is the JSON document `"hello"` parses
successfully to a bare JSON string, and `parseOptions` returns that parsed
value unchanged, which is not a string list — contradicting the function's
own declared return type `string[]`. Array payloads and non-string non-array
payloads are normalized as claimed. -/
theorem parseOptions_leaks_nonarray :
    parseOptions jsonParseAt (Json.str "\"hello\"") = Json.str "hello"
  ∧ isStringList (parseOptions jsonParseAt (Json.str "\"hello\"")) = false
  ∧ isStringList (parseOptions jsonParseAt
      (Json.arr [Json.num 1, Json.str "a", Json.null])) = true
  ∧ isStringList (parseOptions jsonParseAt (Json.num 5)) = true
  ∧ isStringList (parseOptions jsonParseAt Json.null) = true := by
  refine ⟨rfl, rfl, rfl, rfl, rfl⟩

/-- C3 counterexample: the claim asserts that a second submission after the
first is a no-op in both variants because a submitting/submitted boolean
guard prevents the double-write. The quiz variant's `handleSubmitQuiz` has no
such guard (its entry check is only `!user || !quiz || questions.length ===
0`): on a concrete one-question session, invoking it twice writes two attempt
rows and applies the points update twice (10 earned points are added once per
call, leaving the profile at 20). -/
theorem submitQuiz_double_write :
    (let q : Question :=
      { id := "q1", question := "Q", options := ["a", "b"], correct_answer := 0,
        explanation := none, points := 10, order_index := 0 }
     let s₀ : QuizState :=
      { questions := [q], selectedAnswers := [("q1", 0)], isSubmitted := false,
        score := 0 }
     let db₀ : QuizDB :=
      { attempts := [],
        profile := { total_points := some 0, current_level := Level.beginner },
        recommendations := [] }
     let r₁ := handleSubmitQuiz "u1" "z1" 70 (some "l1") 30 s₀ db₀
     let r₂ := handleSubmitQuiz "u1" "z1" 70 (some "l1") 30 r₁.1 r₁.2
     r₁.1.isSubmitted = true
   ∧ r₂.2.attempts.length = 2
   ∧ r₂.2.profile.total_points = some 20) := by
  have hpct : scorePercentage 1 1 = 100 := by decide
  refine ⟨?_, ?_, ?_⟩ <;>
    norm_num [handleSubmitQuiz, scoreCounts, hpct, updateProgression,
      recommendationInserts, List.lookup]

/-- C3 (amended): the secure-exam variant's `handleSubmitExam` is idempotent:
its `isSubmitting` guard makes any re-entrant invocation after the first a
no-op, so no second attempt row is written and the persisted rows are
unchanged; the quiz variant's `handleSubmitQuiz` carries no such guard and
double-writes (see the counterexample). -/
theorem handleSubmitExam_idempotent (userId quizId : String) (s : ExamState)
    (db : ExamDB) :
    handleSubmitExam userId quizId
        (handleSubmitExam userId quizId s db).1
        (handleSubmitExam userId quizId s db).2
      = handleSubmitExam userId quizId s db := by
  by_cases h : s.isSubmitting = true
  · simp [handleSubmitExam, h]
  · simp [handleSubmitExam, h]

/-- C8 counterexample: the claim asserts that selecting an answer after the
session is submitted is a rejected no-op that leaves the AnswerMap unchanged,
citing the secure-exam variant's `handleAnswerSelect` among its sources. That
handler never consults the submitting flag: invoked on a submitting session
with an empty answer map, it inserts the entry anyway. -/
theorem examSelectAnswer_unguarded_counterexample :
    (examSelectAnswer { answers := [], isSubmitting := true } "q1" 0).answers
      = [("q1", 0)]
  ∧ [("q1", 0)] ≠ ([] : AnswerMap) := by
  exact ⟨rfl, by decide⟩

/-- Looking up the written key after a `mapSet` yields the written value. -/
theorem lookup_mapSet_self (m : AnswerMap) (k : String) (v : Nat) :
    List.lookup k (mapSet m k v) = some v := by
  induction m with
  | nil => simp [mapSet, List.lookup]
  | cons hd tl ih =>
      obtain ⟨k₀, v₀⟩ := hd
      by_cases h : k₀ = k
      · subst h
        simp [mapSet, List.lookup]
      · have hb : (k == k₀) = false := beq_eq_false_iff_ne.mpr (Ne.symm h)
        simp [mapSet, h, List.lookup, hb, ih]

/-- `mapSet` leaves every other key's lookup unchanged. -/
theorem lookup_mapSet_other (m : AnswerMap) (k k' : String) (v : Nat)
    (hk : k' ≠ k) :
    List.lookup k' (mapSet m k v) = List.lookup k' m := by
  have hbk : (k' == k) = false := beq_eq_false_iff_ne.mpr hk
  induction m with
  | nil => simp [mapSet, List.lookup, hbk]
  | cons hd tl ih =>
      obtain ⟨k₀, v₀⟩ := hd
      by_cases h : k₀ = k
      · subst h
        simp [mapSet, List.lookup, hbk]
      · by_cases h' : k' = k₀
        · subst h'
          simp [mapSet, h, List.lookup]
        · have hb₀ : (k' == k₀) = false := beq_eq_false_iff_ne.mpr h'
          simp [mapSet, h, List.lookup, hb₀, ih]

/-- C8 (amended): in the quiz variant, `handleSelectAnswer` invoked once the
session is submitted is a rejected no-op, and before submission it
inserts/overwrites exactly the entry for the given question id and changes no
other entry; the secure-exam variant's `handleAnswerSelect` performs the same
insert/overwrite with the same frame property but is not guarded — it
overwrites the entry even while the session is submitting (see the
counterexample). -/
theorem selectAnswer_spec (m : AnswerMap) (q : String) (i : Nat) :
    handleSelectAnswer true m q i = m
  ∧ List.lookup q (handleSelectAnswer false m q i) = some i
  ∧ (∀ k, k ≠ q →
      List.lookup k (handleSelectAnswer false m q i) = List.lookup k m)
  ∧ List.lookup q
      (examSelectAnswer { answers := m, isSubmitting := true } q i).answers
      = some i
  ∧ (∀ k, k ≠ q →
      List.lookup k
        (examSelectAnswer { answers := m, isSubmitting := true } q i).answers
        = List.lookup k m) := by
  refine ⟨rfl, ?_, ?_, ?_, ?_⟩
  · simpa [handleSelectAnswer] using lookup_mapSet_self m q i
  · intro k hk
    simpa [handleSelectAnswer] using lookup_mapSet_other m q k i hk
  · simpa [examSelectAnswer] using lookup_mapSet_self m q i
  · intro k hk
    simpa [examSelectAnswer] using lookup_mapSet_other m q k i hk

/-- Witness for C8's amended theorem at a concrete map, question and other
key. -/
theorem selectAnswer_spec_witness :
    List.lookup "b" (handleSelectAnswer false [("a", 1)] "b" 2) = some 2
  ∧ List.lookup "a" (handleSelectAnswer false [("a", 1)] "b" 2)
      = List.lookup "a" [("a", 1)] :=
  ⟨(selectAnswer_spec [("a", 1)] "b" 2).2.1,
   (selectAnswer_spec [("a", 1)] "b" 2).2.2.1 "a" (by decide)⟩

/-- C7 counterexample: the claim asserts a Recommendation is created if and
only if the percentage is strictly below the passing threshold. The code also
requires the lesson reference to have loaded (`scorePercentage <
quiz.passing_score && lesson`): with a failing score of 50 against threshold
70 but no loaded lesson, no recommendation is inserted. -/
theorem recommendation_missing_lesson_counterexample :
    recommendationInserts 50 70 "u1" none = [] ∧ (50 : ℤ) < 70 :=
  ⟨rfl, by decide⟩

/-- C7 (amended): when the lesson reference is loaded, exactly one
Recommendation is created iff the percentage is strictly below the passing
threshold; it references that lesson, its reason string embeds the observed
score percentage, and it carries the fixed priority 10. When the lesson is
missing, none is created even on a failing score. -/
theorem recommendation_spec (pct passing : ℤ) (userId lessonId : String) :
    (recommendationInserts pct passing userId (some lessonId) ≠ [] ↔ pct < passing)
  ∧ (pct < passing →
      recommendationInserts pct passing userId (some lessonId) =
        [{ user_id := userId, lesson_id := lessonId,
           reason := "Review this lesson - you scored " ++ toString pct
             ++ "% on the quiz",
           priority := 10 }])
  ∧ (∀ r ∈ recommendationInserts pct passing userId (some lessonId),
      r.lesson_id = lessonId ∧ r.priority = 10
      ∧ ∃ s₁ s₂, r.reason = s₁ ++ toString pct ++ s₂)
  ∧ recommendationInserts pct passing userId none = [] := by
  by_cases h : pct < passing
  · refine ⟨?_, fun _ => ?_, ?_, rfl⟩
    · simp [recommendationInserts, h]
    · simp [recommendationInserts, h]
    · intro r hr
      simp [recommendationInserts, h] at hr
      subst hr
      exact ⟨rfl, rfl, "Review this lesson - you scored ", "% on the quiz", rfl⟩
  · refine ⟨?_, fun hc => absurd hc h, ?_, rfl⟩
    · simp [recommendationInserts, h]
    · intro r hr
      simp [recommendationInserts, h] at hr

/-- Witness for C7's amended theorem: a failing score of 50 against threshold
70 with a loaded lesson yields exactly the one expected row. -/
theorem recommendation_spec_witness :
    recommendationInserts 50 70 "u1" (some "l1") =
      [{ user_id := "u1", lesson_id := "l1",
         reason := "Review this lesson - you scored " ++ toString (50 : ℤ)
           ++ "% on the quiz",
         priority := 10 }]
  ∧ (50 : ℤ) < 70 :=
  ⟨(recommendation_spec 50 70 "u1" "l1").2.1 (by decide), by decide⟩

/-- The scoring fold, generalized over its accumulator: it adds the number of
correctly answered questions to the first component and the sum of their
point values to the second. -/
theorem scoreCounts_foldl (questions : List Question) (answers : AnswerMap)
    (a b : Nat) :
    questions.foldl
      (fun acc q =>
        if List.lookup q.id answers = some q.correct_answer
        then (acc.1 + 1, acc.2 + q.points) else acc) (a, b)
    = (a + (questions.filter fun q =>
          decide (List.lookup q.id answers = some q.correct_answer)).length,
       b + ((questions.filter fun q =>
          decide (List.lookup q.id answers = some q.correct_answer)).map
            Question.points).sum) := by
  induction questions generalizing a b with
  | nil => simp
  | cons q rest ih =>
      by_cases h : List.lookup q.id answers = some q.correct_answer
      · rw [List.foldl_cons, if_pos h, ih]
        simp only [List.filter_cons, decide_eq_true_eq, h, if_true,
          List.length_cons, List.map_cons, List.sum_cons, Prod.mk.injEq]
        omega
      · rw [List.foldl_cons, if_neg h, ih]
        simp [List.filter_cons, h]

/-- The floor of a quotient of naturals cast into ℚ is natural division. -/
theorem floor_natCast_div_natCast (a b : ℕ) (hb : 0 < b) :
    ⌊((a : ℚ) / (b : ℚ))⌋ = ((a / b : ℕ) : ℤ) := by
  have hbq : (0 : ℚ) < (b : ℚ) := by exact_mod_cast hb
  rw [Int.floor_eq_iff]
  constructor
  · rw [le_div_iff₀ hbq]
    exact_mod_cast Nat.div_mul_le_self a b
  · rw [div_lt_iff₀ hbq]
    have hlt : a < (a / b + 1) * b := by
      have h₁ : b * (a / b) + a % b = a := Nat.div_add_mod a b
      have h₂ : a % b < b := Nat.mod_lt a hb
      calc a = b * (a / b) + a % b := h₁.symm
        _ < b * (a / b) + b := by omega
        _ = (a / b + 1) * b := by ring
    exact_mod_cast hlt

/-- `mathRoundFP` is the exact half-up rounding of the double's value. -/
theorem mathRoundFP_eq_floor (x : FP) :
    mathRoundFP x = ⌊FP.toRat x + 1 / 2⌋ := by
  have h2e : (0 : ℚ) < ((2 ^ x.e : ℕ) : ℚ) := by
    have : (0 : ℕ) < 2 ^ x.e := Nat.pos_pow_of_pos _ (by omega)
    exact_mod_cast this
  have hval : FP.toRat x + 1 / 2
      = (((2 * x.m + 2 ^ x.e : ℕ) : ℚ) / ((2 ^ (x.e + 1) : ℕ) : ℚ)) := by
    rw [FP.toRat]
    push_cast [pow_succ]
    field_simp
    ring
  rw [hval, mathRoundFP,
    floor_natCast_div_natCast _ _ (Nat.pos_pow_of_pos _ (by omega))]

/-- C4 counterexample: the claim asserts the percentage is the exact half-up
rounding of `100 * correctCount / totalQuestions`. At the reachable input of
23 correct answers out of 40 questions, the program evaluates
`(23 / 40) * 100` in IEEE doubles to the double `8092405580431359 / 2^47 =
57.49999999999999289…`, strictly below 57 + 1/2, so `Math.round` returns 57 —
while exact half-up rounding of `100 * 23 / 40 = 57.5` gives 58. -/
theorem computeScore_float_counterexample :
    scorePercentage 23 40 = 57
  ∧ mathRound ((100 * 23 : ℚ) / 40) = 58
  ∧ jsMul (jsDiv 23 40) 100 = ⟨8092405580431359, 47⟩
  ∧ FP.toRat ⟨8092405580431359, 47⟩ < 57 + 1 / 2 := by
  refine ⟨by decide, ?_, by decide, ?_⟩
  · norm_num [mathRound]
  · rw [FP.toRat]
    norm_num

/-- C4 (amended): `scoreCounts` marks a question correct exactly when the
answer map's entry for its id strictly equals `correct_answer` (an absent
entry counts as incorrect — the lookup is total and never errors); the
percentage is `Math.round` applied to the IEEE-double evaluation of
`(correctCount / totalQuestions) * 100` — the half-up rounding (unique
integer `n` with `n - 1/2 ≤ v < n + 1/2`) of the double product's value `v`,
which can land one below the exact half-up rounding of
`100 * correctCount / totalQuestions` when the double evaluation falls on
the other side of a half-integer (see the counterexample at 23 of 40) — and
the percentage is defined as 0 when the question list is empty. -/
theorem computeScore_spec (questions : List Question) (answers : AnswerMap) :
    (scoreCounts questions answers).1 =
      (questions.filter fun q =>
        decide (List.lookup q.id answers = some q.correct_answer)).length
  ∧ (if questions.length = 0 then
        scorePercentage (scoreCounts questions answers).1 questions.length = 0
      else
        ((scorePercentage (scoreCounts questions answers).1
              questions.length : ℚ) - 1 / 2
          ≤ FP.toRat (jsMul (jsDiv (scoreCounts questions answers).1
              questions.length) 100)
        ∧ FP.toRat (jsMul (jsDiv (scoreCounts questions answers).1
              questions.length) 100)
          < (scorePercentage (scoreCounts questions answers).1
              questions.length : ℚ) + 1 / 2)) := by
  constructor
  · rw [scoreCounts, scoreCounts_foldl]
    simp
  · split
    case isTrue hz =>
      simp [scorePercentage, hz]
    case isFalse hz =>
      have hn : 0 < questions.length := Nat.pos_of_ne_zero hz
      set c := (scoreCounts questions answers).1 with hc
      set v : ℚ := FP.toRat (jsMul (jsDiv c questions.length) 100) with hv
      have hsp : scorePercentage c questions.length = ⌊v + 1 / 2⌋ := by
        rw [scorePercentage, if_pos hn, mathRoundFP_eq_floor, hv]
      have h₁ : (⌊v + 1 / 2⌋ : ℚ) ≤ v + 1 / 2 := Int.floor_le _
      have h₂ : v + 1 / 2 < (⌊v + 1 / 2⌋ : ℚ) + 1 := Int.lt_floor_add_one _
      rw [hsp]
      constructor
      · linarith
      · linarith

/-- C5: `buildSession` with 'all' returns the pool unchanged in its loaded
(order_index) sequence; with a numeric count it returns exactly
`min(count, poolSize)` questions, each a member of the original pool, with no
duplicates — for every shuffle outcome (any permutation of the pool, which is
all the JS comparator-based shuffle can produce) and duplicate-free pool. -/
theorem buildSession_spec (pool shuffled : List Question) (count : Nat)
    (hperm : shuffled.Perm pool) (hnd : pool.Nodup) :
    buildSession pool none shuffled = pool
  ∧ (buildSession pool (some count) shuffled).length = min count pool.length
  ∧ (∀ q ∈ buildSession pool (some count) shuffled, q ∈ pool)
  ∧ (buildSession pool (some count) shuffled).Nodup := by
  refine ⟨rfl, ?_, ?_, ?_⟩
  · simp only [buildSession, List.length_take, hperm.length_eq]
    omega
  · intro q hq
    exact hperm.subset (List.take_subset _ _ hq)
  · exact (hperm.nodup_iff.mpr hnd).sublist (List.take_sublist _ _)

/-- Witness for C5 at a concrete three-question pool, a concrete shuffle and
count 2. -/
theorem buildSession_spec_witness :
    ([⟨"c", "?", [], 0, none, 10, 2⟩, ⟨"a", "?", [], 0, none, 10, 0⟩,
        ⟨"b", "?", [], 0, none, 10, 1⟩] : List Question).Perm
      [⟨"a", "?", [], 0, none, 10, 0⟩, ⟨"b", "?", [], 0, none, 10, 1⟩,
        ⟨"c", "?", [], 0, none, 10, 2⟩]
  ∧ (buildSession
      [⟨"a", "?", [], 0, none, 10, 0⟩, ⟨"b", "?", [], 0, none, 10, 1⟩,
        ⟨"c", "?", [], 0, none, 10, 2⟩]
      (some 2)
      [⟨"c", "?", [], 0, none, 10, 2⟩, ⟨"a", "?", [], 0, none, 10, 0⟩,
        ⟨"b", "?", [], 0, none, 10, 1⟩]).length = min 2 3 :=
  ⟨by decide,
   (buildSession_spec
      [⟨"a", "?", [], 0, none, 10, 0⟩, ⟨"b", "?", [], 0, none, 10, 1⟩,
        ⟨"c", "?", [], 0, none, 10, 2⟩]
      [⟨"c", "?", [], 0, none, 10, 2⟩, ⟨"a", "?", [], 0, none, 10, 0⟩,
        ⟨"b", "?", [], 0, none, 10, 1⟩]
      2 (by decide) (by decide)).2.1⟩

/-- C6: on a passing attempt (`pct ≥ passing`) the progression update sets
the cumulative total to `currentPoints + totalPoints`, moves beginner to
intermediate exactly when the new total reaches 500 and intermediate to
advanced exactly when it reaches 1500 (each threshold checked against the new
cumulative total), an already-advanced profile stays advanced, the level
never regresses, and a failing attempt leaves the profile untouched. -/
theorem updateProgression_spec (pct passing : ℤ) (p : Profile) (tp : Nat) :
    (pct ≥ passing →
      (updateProgression pct passing p tp).total_points
        = some (p.total_points.getD 0 + tp))
  ∧ (pct ≥ passing → p.current_level = Level.beginner →
      ((updateProgression pct passing p tp).current_level = Level.intermediate
        ↔ p.total_points.getD 0 + tp ≥ 500))
  ∧ (pct ≥ passing → p.current_level = Level.intermediate →
      ((updateProgression pct passing p tp).current_level = Level.advanced
        ↔ p.total_points.getD 0 + tp ≥ 1500))
  ∧ (p.current_level = Level.advanced →
      (updateProgression pct passing p tp).current_level = Level.advanced)
  ∧ levelRank p.current_level
      ≤ levelRank (updateProgression pct passing p tp).current_level
  ∧ (pct < passing → updateProgression pct passing p tp = p) := by
  by_cases hp : passing ≤ pct
  · refine ⟨fun _ => ?_, fun _ hb => ?_, fun _ hi => ?_, fun ha => ?_, ?_,
      fun hlt => absurd hp (not_le.mpr hlt)⟩
    · simp [updateProgression, hp]
    · simp only [updateProgression, if_pos hp, hb]
      by_cases h5 : p.total_points.getD 0 + tp ≥ 500
      · simp [h5]
      · simp [h5]
    · simp only [updateProgression, if_pos hp, hi]
      by_cases h15 : p.total_points.getD 0 + tp ≥ 1500
      · simp [h15]
      · simp [h15]
    · simp [updateProgression, hp, ha]
    · cases hl : p.current_level <;>
        simp only [updateProgression, if_pos hp, hl] <;>
        split_ifs <;> simp_all [levelRank]
  · have hid : updateProgression pct passing p tp = p := by
      simp [updateProgression, hp]
    refine ⟨fun hc => absurd hc hp, fun hc => absurd hc hp,
      fun hc => absurd hc hp, fun ha => ?_, ?_, fun _ => hid⟩
    · rw [hid]; exact ha
    · rw [hid]

/-- Witness for C6: a passing attempt (80 ≥ 70) by a beginner at 480 points
earning 30 points crosses the 500 threshold and lands at intermediate with
510 points. -/
theorem updateProgression_spec_witness :
    (updateProgression 80 70
        { total_points := some 480, current_level := Level.beginner }
        30).total_points = some 510
  ∧ (updateProgression 80 70
        { total_points := some 480, current_level := Level.beginner }
        30).current_level = Level.intermediate :=
  ⟨(updateProgression_spec 80 70
      { total_points := some 480, current_level := Level.beginner } 30).1
      (by decide),
   ((updateProgression_spec 80 70
      { total_points := some 480, current_level := Level.beginner } 30).2.1
      (by decide) rfl).mpr (by decide)⟩

/-- While the countdown is still positive, `tick` only decrements it: after
`k` seconds of an active session whose countdown started at `t` (`k < t`),
the state is unchanged except that the countdown reads `t - k`. -/
theorem tick_countdown (s : TimedQuizState) (hstart : s.quizStarted = true)
    (hen : s.timerEnabled = true) (hns : s.isSubmitted = false)
    (t : Nat) (ht : s.timeRemaining = some t) :
    ∀ k, k < t → tick^[k] s = { s with timeRemaining := some (t - k) } := by
  intro k
  induction k with
  | zero =>
      intro _
      rw [Function.iterate_zero_apply, Nat.sub_zero, ← ht]
  | succ k ih =>
      intro hk
      have hk' : k < t := Nat.lt_of_succ_lt hk
      rw [Function.iterate_succ_apply', ih hk']
      have h2 : ¬(t - k ≤ 1) := by omega
      simp only [tick, hstart, hen, hns, Bool.not_false, Bool.and_self,
        if_true, if_neg h2]
      congr 2

/-- C9: with the timer enabled for `minutes` minutes, the countdown of a
freshly started session is `minutes * 60` seconds — the deadline is the
session start plus `minutes * 60` seconds. If the user does not submit, the
session is still unsubmitted strictly before the deadline, transitions to
Submitted exactly at the deadline tick, and the score written at that moment
is computed from the answers recorded in the state at that instant. With the
timer disabled, `tick` never changes the state, so no deadline exists and no
automatic submission ever fires. -/
theorem timer_spec (minutes : Nat) (s₀ : TimedQuizState) (hm : 1 ≤ minutes)
    (hstart : s₀.quizStarted = true) (hen : s₀.timerEnabled = true)
    (hns : s₀.isSubmitted = false)
    (ht : s₀.timeRemaining = buildTimer true minutes) :
    buildTimer true minutes = some (minutes * 60)
  ∧ (∀ k, k < minutes * 60 → (tick^[k] s₀).isSubmitted = false)
  ∧ (tick^[minutes * 60] s₀).isSubmitted = true
  ∧ (tick^[minutes * 60] s₀).score =
      scorePercentage
        (scoreCounts (tick^[minutes * 60 - 1] s₀).questions
          (tick^[minutes * 60 - 1] s₀).selectedAnswers).1
        (tick^[minutes * 60 - 1] s₀).questions.length
  ∧ (∀ s : TimedQuizState, s.timerEnabled = false → ∀ k, tick^[k] s = s) := by
  have htv : s₀.timeRemaining = some (minutes * 60) := by
    simpa [buildTimer] using ht
  have hpre : tick^[minutes * 60 - 1] s₀
      = { s₀ with timeRemaining := some 1 } := by
    rw [tick_countdown s₀ hstart hen hns (minutes * 60) htv (minutes * 60 - 1)
      (by omega)]
    congr 2
    omega
  have hfin : tick^[minutes * 60] s₀
      = submitTimed { s₀ with timeRemaining := some 0 } := by
    have hsucc : minutes * 60 = (minutes * 60 - 1) + 1 := by omega
    rw [hsucc, Function.iterate_succ_apply', hpre]
    simp [tick, hstart, hen, hns]
  refine ⟨by simp [buildTimer], ?_, ?_, ?_, ?_⟩
  · intro k hk
    rw [tick_countdown s₀ hstart hen hns (minutes * 60) htv k hk]
    exact hns
  · rw [hfin]; rfl
  · rw [hfin, hpre]; rfl
  · intro s hsd k
    induction k with
    | zero => rfl
    | succ k ih =>
        rw [Function.iterate_succ_apply', ih]
        simp [tick, hsd]

/-- Witness for C9: a one-minute timer on a concrete started session is still
running at 59 seconds and has auto-submitted at 60 seconds. -/
theorem timer_spec_witness :
    (tick^[59] (⟨true, true, some 60, false, [("q1", 0)],
        [⟨"q1", "Q", ["a"], 0, none, 10, 0⟩], 0⟩ : TimedQuizState)).isSubmitted
      = false
  ∧ (tick^[60] (⟨true, true, some 60, false, [("q1", 0)],
        [⟨"q1", "Q", ["a"], 0, none, 10, 0⟩], 0⟩ : TimedQuizState)).isSubmitted
      = true :=
  ⟨(timer_spec 1
      (⟨true, true, some 60, false, [("q1", 0)],
        [⟨"q1", "Q", ["a"], 0, none, 10, 0⟩], 0⟩ : TimedQuizState)
      (by decide) rfl rfl rfl rfl).2.1 59 (by decide),
   (timer_spec 1
      (⟨true, true, some 60, false, [("q1", 0)],
        [⟨"q1", "Q", ["a"], 0, none, 10, 0⟩], 0⟩ : TimedQuizState)
      (by decide) rfl rfl rfl rfl).2.2.1⟩

end AdaptiveScholar
